import Mathlib

/-!
# systemd D-Bus service library: embedding and properties

A shallow embedding of `systemdDbusServiceLib.h` and `systemdDbusServiceLib.cpp`.

The sd-bus library is an external collaborator.  It is embedded as a recording
double: every sd-bus function the source calls appends one `Event` to the trace
of the `World`, hands out fresh handle numbers, and answers with a status that
is a parameter of the call.  Since a single `doServiceAction` invokes each
sd-bus function at most once, quantifying over these answers covers every
behaviour of the bus.

Diagnostics written with `fprintf(stderr, ...)` do not influence any result
and are left out.
-/

namespace sysddbus

/-! ## Data model -/

/-- The enumeration `enum class ServiceAction` of the header. -/
inductive ServiceAction where
  | DISABLE
  | ENABLE
  | MASK
  | UNMASK
  | START
  | STOP
  deriving DecidableEq, Repr

/-- The record `struct DbusData`. -/
structure DbusData where
  dbusFunction : String
  signature : String
  deriving DecidableEq, Repr

/-- The table `std::map<ServiceAction, DbusData> actionMapping`, entry by entry. -/
def actionMapping : List (ServiceAction × DbusData) :=
  [ (ServiceAction.DISABLE, ⟨"DisableUnitFiles", "asb"⟩),
    (ServiceAction.ENABLE, ⟨"EnableUnitFiles", "asbb"⟩),
    (ServiceAction.MASK, ⟨"MaskUnitFiles", "asbb"⟩),
    (ServiceAction.UNMASK, ⟨"UnmaskUnitFiles", "asb"⟩),
    (ServiceAction.START, ⟨"StartUnit", "ss"⟩),
    (ServiceAction.STOP, ⟨"StopUnit", "ss"⟩) ]

/-- The lookup `actionMapping.find(action)`; `none` stands for `actionMapping.end()`. -/
def actionMapping.find (action : ServiceAction) : Option DbusData :=
  (actionMapping.find? (fun p => decide (p.1 = action))).map Prod.snd

/-- A value handed to the variadic `sd_bus_message_append` after the signature.
C passes an `int` or a `const char*` there; a `bool` arrives promoted to `int`,
and `str` carries the text the `const char*` points to, up to its terminator. -/
inductive VArg where
  | int (n : Int)
  | str (s : String)
  deriving DecidableEq, Repr

/-- The text a callee reads from `s.c_str()`: a `std::string` may hold NUL
characters, and a `const char*` ends at the first of them. -/
def c_str (s : String) : String :=
  String.mk (s.toList.takeWhile fun c => c != Char.ofNat 0)

/-- Default argument promotion of a C++ `bool` passed through `...`. -/
def VArg.ofBool (b : Bool) : VArg :=
  VArg.int (if b then 1 else 0)

/-- One recorded sd-bus operation, with the arguments the source passed and
what the bus answered.  Handles are numbers; `none` is a null pointer. -/
inductive Event where
  | busOpenSystem (ret : Int) (out : Option Nat)
  | busFlushCloseUnref (bus : Nat)
  | messageNewMethodCall (bus : Nat) (destination path interface member : String)
      (ret : Int) (out : Option Nat)
  | messageAppend (msg : Option Nat) (signature : String) (args : List VArg) (ret : Int)
  | busCall (bus : Nat) (msg : Option Nat) (usec : Nat) (ret : Int) (reply : Option Nat)
  | messageUnref (msg : Nat)
  deriving DecidableEq, Repr

/-- The bus as seen by the library: the operations recorded so far, oldest
first, and the next unused handle number. -/
structure World where
  trace : List Event := []
  nextHandle : Nat := 0
  deriving DecidableEq, Repr

/-- Answer of an sd-bus function that has an out-pointer: the returned status
and whether it stored a newly allocated handle through the pointer. -/
structure Answer where
  ret : Int
  wrote : Bool
  deriving DecidableEq, Repr

/-- The answers the bus gives during one `doServiceAction`. -/
structure CallAnswers where
  newMethodCall : Answer
  append : Int
  call : Answer
  deriving DecidableEq, Repr

/-! ## The sd-bus operations used by the source -/

/-- Stores a fresh handle through an out-pointer whose current content is `cur`,
when the bus says it wrote one. -/
def World.store (w : World) (wrote : Bool) (cur : Option Nat) : Option Nat :=
  if wrote then some w.nextHandle else cur

/-- Handle counter after an operation that may have allocated. -/
def World.bump (w : World) (wrote : Bool) : Nat :=
  if wrote then w.nextHandle + 1 else w.nextHandle

/-- The call `sd_bus_open_system(&bus)`: new world, new content of `bus`, status. -/
def sd_bus_open_system (w : World) (a : Answer) (bus : Option Nat) :
    World × Option Nat × Int :=
  ({ trace := w.trace ++ [Event.busOpenSystem a.ret (if a.wrote then some w.nextHandle else none)],
     nextHandle := w.bump a.wrote },
   w.store a.wrote bus, a.ret)

/-- The call `sd_bus_flush_close_unref(bus)`. -/
def sd_bus_flush_close_unref (w : World) (bus : Nat) : World :=
  { w with trace := w.trace ++ [Event.busFlushCloseUnref bus] }

/-- The call `sd_bus_message_new_method_call(bus, &m, destination, path, interface, member)`. -/
def sd_bus_message_new_method_call (w : World) (a : Answer) (bus : Nat) (m : Option Nat)
    (destination path interface member : String) : World × Option Nat × Int :=
  ({ trace := w.trace ++ [Event.messageNewMethodCall bus destination path interface member a.ret
        (if a.wrote then some w.nextHandle else none)],
     nextHandle := w.bump a.wrote },
   w.store a.wrote m, a.ret)

/-- The call `sd_bus_message_append(m, signature, args...)`. -/
def sd_bus_message_append (w : World) (ret : Int) (m : Option Nat) (signature : String)
    (args : List VArg) : World × Int :=
  ({ w with trace := w.trace ++ [Event.messageAppend m signature args ret] }, ret)

/-- The call `sd_bus_call(bus, m, usec, &error, &reply)`. -/
def sd_bus_call (w : World) (a : Answer) (bus : Nat) (m : Option Nat) (usec : Nat)
    (reply : Option Nat) : World × Option Nat × Int :=
  ({ trace := w.trace ++ [Event.busCall bus m usec a.ret
        (if a.wrote then some w.nextHandle else none)],
     nextHandle := w.bump a.wrote },
   w.store a.wrote reply, a.ret)

/-- The call `sd_bus_message_unref(m)`. -/
def sd_bus_message_unref (w : World) (m : Nat) : World :=
  { w with trace := w.trace ++ [Event.messageUnref m] }

/-! ## `SD_BUS_MSG` -/

/-- The class `SD_BUS_MSG`; the default constructor leaves `m_msg` null. -/
structure SD_BUS_MSG where
  m_msg : Option Nat := none
  m_data : DbusData := ⟨"", ""⟩
  deriving DecidableEq, Repr

/-- The method `SD_BUS_MSG::setData`. -/
def SD_BUS_MSG.setData (msg : SD_BUS_MSG) (data : DbusData) : SD_BUS_MSG :=
  { msg with m_data := data }

/-- The method `SD_BUS_MSG::getSignature`. -/
def SD_BUS_MSG.getSignature (msg : SD_BUS_MSG) : String :=
  msg.m_data.signature

/-- The destructor `SD_BUS_MSG::~SD_BUS_MSG`. -/
def SD_BUS_MSG.destroy (w : World) (msg : SD_BUS_MSG) : World :=
  match msg.m_msg with
  | some m => sd_bus_message_unref w m
  | none => w

/-! ## Free functions of `systemdDbusServiceLib.cpp` -/

/-- The function `createNewMethodCall(bus, msg, action)`: new world, new `msg`, status. -/
def createNewMethodCall (w : World) (a : Answer) (bus : Nat) (msg : SD_BUS_MSG)
    (action : ServiceAction) : World × SD_BUS_MSG × Int :=
  match actionMapping.find action with
  | none => (w, msg, -1)
  | some data =>
    let msg1 := msg.setData data
    let r := sd_bus_message_new_method_call w a bus msg1.m_msg
      "org.freedesktop.systemd1"
      "/org/freedesktop/systemd1"
      "org.freedesktop.systemd1.Manager"
      data.dbusFunction
    (r.1, { msg1 with m_msg := r.2.1 }, r.2.2)

/-- The function `appendUserData2Msg(action, msg, service)`.  The `default:` arm
of the `switch` has no counterpart, the six cases exhaust `ServiceAction`. -/
def appendUserData2Msg (w : World) (ret : Int) (action : ServiceAction) (msg : SD_BUS_MSG)
    (service : String) : World × Int :=
  match action with
  | ServiceAction.DISABLE =>
    sd_bus_message_append w ret msg.m_msg msg.getSignature
      [VArg.int 1, VArg.str (c_str service), VArg.ofBool false]
  | ServiceAction.ENABLE =>
    sd_bus_message_append w ret msg.m_msg msg.getSignature
      [VArg.int 1, VArg.str (c_str service), VArg.ofBool false, VArg.ofBool true]
  | ServiceAction.MASK =>
    sd_bus_message_append w ret msg.m_msg msg.getSignature
      [VArg.int 1, VArg.str (c_str service), VArg.ofBool false, VArg.ofBool true]
  | ServiceAction.UNMASK =>
    sd_bus_message_append w ret msg.m_msg msg.getSignature
      [VArg.int 1, VArg.str (c_str service), VArg.ofBool false]
  | ServiceAction.START =>
    sd_bus_message_append w ret msg.m_msg msg.getSignature
      [VArg.str (c_str service), VArg.str "fail"]
  | ServiceAction.STOP =>
    sd_bus_message_append w ret msg.m_msg msg.getSignature
      [VArg.str (c_str service), VArg.str "fail"]

/-! ## The class `SystemdDbusServiceLib` -/

/-- The class `SystemdDbusServiceLib`: its only member is the bus pointer. -/
structure SystemdDbusServiceLib where
  m_bus : Option Nat := none
  deriving DecidableEq, Repr

/-- The method `isGood`. -/
def SystemdDbusServiceLib.isGood (s : SystemdDbusServiceLib) : Bool :=
  s.m_bus != none

/-- The method `cleanUp`. -/
def SystemdDbusServiceLib.cleanUp (s : SystemdDbusServiceLib) (w : World) : World :=
  match s.m_bus with
  | some b => sd_bus_flush_close_unref w b
  | none => w

/-- The method `init`. -/
def SystemdDbusServiceLib.init (s : SystemdDbusServiceLib) (w : World) (a : Answer) :
    World × SystemdDbusServiceLib × Int :=
  let r := sd_bus_open_system w a s.m_bus
  (r.1, { m_bus := r.2.1 }, r.2.2)

/-- The method `reinit`. -/
def SystemdDbusServiceLib.reinit (s : SystemdDbusServiceLib) (w : World) (a : Answer) :
    World × SystemdDbusServiceLib × Int :=
  let r := s.init w a
  if r.2.2 ≠ 0 then
    (r.2.1.cleanUp r.1, { m_bus := none }, r.2.2)
  else
    r

/-- The constructor: a null `m_bus`, then `(void)reinit()`. -/
def SystemdDbusServiceLib.construct (w : World) (a : Answer) : World × SystemdDbusServiceLib :=
  let r := SystemdDbusServiceLib.reinit { m_bus := none } w a
  (r.1, r.2.1)

/-- The destructor. -/
def SystemdDbusServiceLib.destroy (s : SystemdDbusServiceLib) (w : World) : World :=
  s.cleanUp w

/-- The method `doServiceAction(action, service)`.  The locals `msg` and `reply`
are destroyed on every return after their declaration, `reply` first. -/
def SystemdDbusServiceLib.doServiceAction (s : SystemdDbusServiceLib) (w : World)
    (t : CallAnswers) (action : ServiceAction) (service : String) : World × Int :=
  match s.m_bus with
  | none => (w, -1)
  | some bus =>
    let msg : SD_BUS_MSG := {}
    let reply : SD_BUS_MSG := {}
    let r1 := createNewMethodCall w t.newMethodCall bus msg action
    if r1.2.2 ≠ 0 then
      (r1.2.1.destroy (reply.destroy r1.1), r1.2.2)
    else
      let r2 := appendUserData2Msg r1.1 t.append action r1.2.1 service
      if r2.2 < 0 then
        (r1.2.1.destroy (reply.destroy r2.1), r2.2)
      else
        let r3 := sd_bus_call r2.1 t.call bus r1.2.1.m_msg 0 reply.m_msg
        let reply1 : SD_BUS_MSG := { reply with m_msg := r3.2.1 }
        if r3.2.2 < 0 then
          (r1.2.1.destroy (reply1.destroy r3.1), r3.2.2)
        else
          (r1.2.1.destroy (reply1.destroy r3.1), 0)

/-! ## Observations on the recorded trace -/

/-- The operations recorded in `w2` after the point at which the world was `w1`. -/
def World.since (w1 w2 : World) : List Event :=
  w2.trace.drop w1.trace.length

/-- Destination, path, interface and member of every method call built. -/
def methodCalls (es : List Event) : List (String × String × String × String) :=
  es.filterMap fun e =>
    match e with
    | Event.messageNewMethodCall _ d p i m _ _ => some (d, p, i, m)
    | _ => none

/-- Signature and values of every append call. -/
def appends (es : List Event) : List (String × List VArg) :=
  es.filterMap fun e =>
    match e with
    | Event.messageAppend _ sig args _ => some (sig, args)
    | _ => none

/-- Bus handle of every `sd_bus_call`. -/
def busCalls (es : List Event) : List Nat :=
  es.filterMap fun e =>
    match e with
    | Event.busCall b _ _ _ _ => some b
    | _ => none

/-- Message handles the bus handed out: requests from
`sd_bus_message_new_method_call`, replies from `sd_bus_call`. -/
def msgAcquired (es : List Event) : List Nat :=
  es.filterMap fun e =>
    match e with
    | Event.messageNewMethodCall _ _ _ _ _ _ out => out
    | Event.busCall _ _ _ _ reply => reply
    | _ => none

/-- Message handles given back with `sd_bus_message_unref`. -/
def msgReleased (es : List Event) : List Nat :=
  es.filterMap fun e =>
    match e with
    | Event.messageUnref m => some m
    | _ => none

/-- Bus handles the bus handed out with `sd_bus_open_system`. -/
def busOpened (es : List Event) : List Nat :=
  es.filterMap fun e =>
    match e with
    | Event.busOpenSystem _ out => out
    | _ => none

/-- Bus handles given back with `sd_bus_flush_close_unref`. -/
def busReleased (es : List Event) : List Nat :=
  es.filterMap fun e =>
    match e with
    | Event.busFlushCloseUnref b => some b
    | _ => none

/-! ## How `sd_bus_message_append` reads its variadic arguments

For the type codes the table uses: `s` reads one `const char*`, `b` reads one
`int` (non-zero is true), `as` reads an `int` length and then that many
`const char*`. -/

/-- A typed value in a message body. -/
inductive DBusValue where
  | string (s : String)
  | boolean (b : Bool)
  | stringArray (xs : List String)
  deriving DecidableEq, Repr

/-- Reads `n` strings from the front of the values. -/
def takeStrings : Nat → List VArg → Option (List String × List VArg)
  | 0, rest => some ([], rest)
  | n + 1, VArg.str s :: rest => (takeStrings n rest).map fun p => (s :: p.1, p.2)
  | _ + 1, _ => none

/-- Reads the values against the signature; `none` when a value is missing, is
left over, has the wrong C type, or the signature uses another type code.
The flag says that the code just read was `a`, so an element type follows. -/
def readArgsFrom : Bool → List Char → List VArg → Option (List DBusValue)
  | false, [], [] => some []
  | false, [], _ :: _ => none
  | true, [], _ => none
  | false, c :: sig, args =>
    if c = 's' then
      match args with
      | VArg.str s :: rest =>
        (readArgsFrom false sig rest).map fun vs => DBusValue.string s :: vs
      | _ => none
    else if c = 'b' then
      match args with
      | VArg.int n :: rest =>
        (readArgsFrom false sig rest).map fun vs => DBusValue.boolean (n != 0) :: vs
      | _ => none
    else if c = 'a' then readArgsFrom true sig args
    else none
  | true, c :: sig, args =>
    if c = 's' then
      match args with
      | VArg.int n :: rest =>
        if 0 ≤ n then
          match takeStrings n.toNat rest with
          | some (xs, rest1) =>
            (readArgsFrom false sig rest1).map fun vs => DBusValue.stringArray xs :: vs
          | none => none
        else none
      | _ => none
    else none

/-- The typed message body that `sd_bus_message_append` builds from a signature
and the values passed after it. -/
def readArgs (signature : String) (args : List VArg) : Option (List DBusValue) :=
  readArgsFrom false signature.toList args

/-- The signature column of the table in the specification (section 4.3). -/
def specSignature : ServiceAction → String
  | ServiceAction.DISABLE => "asb"
  | ServiceAction.ENABLE => "asbb"
  | ServiceAction.MASK => "asbb"
  | ServiceAction.UNMASK => "asb"
  | ServiceAction.START => "ss"
  | ServiceAction.STOP => "ss"

/-- The arguments column of the table in the specification (section 4.3). -/
def specArguments (action : ServiceAction) (unitName : String) : List DBusValue :=
  match action with
  | ServiceAction.DISABLE => [DBusValue.stringArray [unitName], DBusValue.boolean false]
  | ServiceAction.ENABLE =>
    [DBusValue.stringArray [unitName], DBusValue.boolean false, DBusValue.boolean true]
  | ServiceAction.MASK =>
    [DBusValue.stringArray [unitName], DBusValue.boolean false, DBusValue.boolean true]
  | ServiceAction.UNMASK => [DBusValue.stringArray [unitName], DBusValue.boolean false]
  | ServiceAction.START => [DBusValue.string unitName, DBusValue.string "fail"]
  | ServiceAction.STOP => [DBusValue.string unitName, DBusValue.string "fail"]

/-! ## Life of a service object -/

/-- A public operation a caller performs on a constructed object, together with
the answers the bus gives while it runs. -/
inductive Op where
  | reinit (a : Answer)
  | doServiceAction (t : CallAnswers) (action : ServiceAction) (service : String)
  deriving DecidableEq, Repr

/-- Runs one public operation; the returned status is dropped. -/
def Op.run (w : World) (s : SystemdDbusServiceLib) : Op → World × SystemdDbusServiceLib
  | Op.reinit a => ((s.reinit w a).1, (s.reinit w a).2.1)
  | Op.doServiceAction t action service => ((s.doServiceAction w t action service).1, s)

/-- Runs a sequence of public operations, first to last. -/
def runOps (w : World) (s : SystemdDbusServiceLib) : List Op → World × SystemdDbusServiceLib
  | [] => (w, s)
  | op :: ops => runOps (op.run w s).1 (op.run w s).2 ops

/-- Construction against a bus with nothing recorded, then the operations. -/
def life (a : Answer) (ops : List Op) : World × SystemdDbusServiceLib :=
  runOps (SystemdDbusServiceLib.construct {} a).1 (SystemdDbusServiceLib.construct {} a).2 ops

/-- Construction, the operations, then destruction: the final record of the bus. -/
def wholeLife (a : Answer) (ops : List Op) : World :=
  (life a ops).2.destroy (life a ops).1

/-- The constructor and every `reinit` in the sequence got a non-zero status
from `sd_bus_open_system`. -/
def allOpensFailed (a : Answer) (ops : List Op) : Prop :=
  a.ret ≠ 0 ∧ ∀ b, Op.reinit b ∈ ops → b.ret ≠ 0

/-- One step of the handle audit: `none` once a bus handle was released twice
or was used after its release, else the handles released so far. -/
def auditStep (st : Option (List Nat)) (e : Event) : Option (List Nat) :=
  match st with
  | none => none
  | some released =>
    match e with
    | Event.busFlushCloseUnref b => if b ∈ released then none else some (b :: released)
    | Event.messageNewMethodCall b _ _ _ _ _ _ => if b ∈ released then none else some released
    | Event.busCall b _ _ _ _ => if b ∈ released then none else some released
    | _ => some released

/-- Audit of a whole trace, starting with nothing released. -/
def audit (es : List Event) : Option (List Nat) :=
  es.foldl auditStep (some [])

/-- No bus handle is released twice and none is passed to sd-bus after its release. -/
def busSafe (es : List Event) : Bool :=
  (audit es).isSome

/-- The status `doServiceAction` reports for a completed action: the connection
is good, the message was built, and neither append nor call reported an error. -/
def succeeded (s : SystemdDbusServiceLib) (t : CallAnswers) : Prop :=
  s.isGood = true ∧ t.newMethodCall.ret = 0 ∧ 0 ≤ t.append ∧ 0 ≤ t.call.ret

/-- The invariant of the connection handle: the audit of the record has not
failed, the handles it saw released are the released ones and were all opened,
opened handles are below the handle counter, and the handle the object holds
was opened and has not been released. -/
def Inv (w : World) (s : SystemdDbusServiceLib) : Prop :=
  ∃ rel, audit w.trace = some rel ∧
    (∀ h, h ∈ rel ↔ h ∈ busReleased w.trace) ∧
    (∀ h, h ∈ busOpened w.trace → h < w.nextHandle) ∧
    (∀ h, h ∈ rel → h ∈ busOpened w.trace) ∧
    (∀ b, s.m_bus = some b → b ∈ busOpened w.trace ∧ b ∉ rel)

/-! ## Properties of a single `doServiceAction` -/

/-- C1: with a null connection handle (`isGood()` false), `doServiceAction`
returns a negative status and performs no bus operation: the record of the bus,
and its handle counter, are exactly what they were. -/
theorem doServiceAction_not_good (s : SystemdDbusServiceLib) (w : World) (t : CallAnswers)
    (action : ServiceAction) (service : String) (h : s.isGood = false) :
    (s.doServiceAction w t action service).2 < 0 ∧
      (s.doServiceAction w t action service).1 = w ∧
      w.since (s.doServiceAction w t action service).1 = [] := by
  have hb : s.m_bus = none := by
    cases hm : s.m_bus with
    | none => rfl
    | some b => simp [SystemdDbusServiceLib.isGood, hm] at h
  simp [SystemdDbusServiceLib.doServiceAction, hb, World.since]

/-- Witness of C1 on a never connected object. -/
theorem doServiceAction_not_good_witness :
    (SystemdDbusServiceLib.doServiceAction {} {} ⟨⟨0, true⟩, 0, ⟨0, true⟩⟩
        ServiceAction.START "foo.service").2 < 0 ∧
      (SystemdDbusServiceLib.doServiceAction {} {} ⟨⟨0, true⟩, 0, ⟨0, true⟩⟩
        ServiceAction.START "foo.service").1 = {} ∧
      World.since {} (SystemdDbusServiceLib.doServiceAction {} {} ⟨⟨0, true⟩, 0, ⟨0, true⟩⟩
        ServiceAction.START "foo.service").1 = [] :=
  doServiceAction_not_good {} {} ⟨⟨0, true⟩, 0, ⟨0, true⟩⟩ ServiceAction.START "foo.service" rfl

/-- A unit name without a NUL character is read back whole from `c_str()`. -/
theorem c_str_of_no_nul (s : String) (h : ∀ c ∈ s.toList, c ≠ Char.ofNat 0) :
    c_str s = s := by
  have htake : (s.toList.takeWhile fun c => c != Char.ofNat 0) = s.toList := by
    rw [List.takeWhile_eq_self_iff]
    intro c hc
    simpa using h c hc
  unfold c_str
  rw [htake]
  cases s
  rfl

/-- A good object holds some bus handle. -/
theorem exists_bus_of_isGood (s : SystemdDbusServiceLib) (h : s.isGood = true) :
    ∃ b, s.m_bus = some b := by
  cases hm : s.m_bus with
  | none => simp [SystemdDbusServiceLib.isGood, hm] at h
  | some b => exact ⟨b, rfl⟩

/-- For every action and every unit name, the message that
`createNewMethodCall` prepared makes `appendUserData2Msg` record one append
call with the signature of the table, whose values read against it give the
arguments of the table for the unit name as `c_str()` shows it. -/
theorem appendUserData2Msg_c_str (w : World) (a : Answer) (bus : Nat) (msg : SD_BUS_MSG)
    (ret : Int) (action : ServiceAction) (service : String) :
    ∃ args,
      (appendUserData2Msg (createNewMethodCall w a bus msg action).1 ret action
        (createNewMethodCall w a bus msg action).2.1 service).1.trace
        = (createNewMethodCall w a bus msg action).1.trace ++
          [Event.messageAppend (createNewMethodCall w a bus msg action).2.1.m_msg
            (specSignature action) args ret] ∧
      readArgs (specSignature action) args = some (specArguments action (c_str service)) := by
  cases action <;>
    simp [appendUserData2Msg, createNewMethodCall, actionMapping.find, actionMapping,
      sd_bus_message_append, sd_bus_message_new_method_call, SD_BUS_MSG.getSignature,
      SD_BUS_MSG.setData, specSignature, specArguments, readArgs, readArgsFrom, takeStrings,
      VArg.ofBool]

/-- C2, as stated, fails: for the unit name `x`, NUL, `y.service` the append
call of `DISABLE` gets the signature `asb` of the table, but the string in
the array is `x`, not the unit name. -/
theorem appendUserData2Msg_cuts_at_nul :
    (appendUserData2Msg (createNewMethodCall {} ⟨0, true⟩ 0 {} ServiceAction.DISABLE).1 0
        ServiceAction.DISABLE (createNewMethodCall {} ⟨0, true⟩ 0 {} ServiceAction.DISABLE).2.1
        "x\x00y.service").1.trace
        = (createNewMethodCall {} ⟨0, true⟩ 0 {} ServiceAction.DISABLE).1.trace ++
          [Event.messageAppend (some 0) "asb" [VArg.int 1, VArg.str "x", VArg.int 0] 0] ∧
      readArgs "asb" [VArg.int 1, VArg.str "x", VArg.int 0]
        = some [DBusValue.stringArray ["x"], DBusValue.boolean false] ∧
      some [DBusValue.stringArray ["x"], DBusValue.boolean false]
        ≠ some (specArguments ServiceAction.DISABLE "x\x00y.service") := by
  decide

/-- C2, amended: for each of the six actions and every unit name that contains
no NUL character, the message that `createNewMethodCall` prepared makes
`appendUserData2Msg` record one append call whose signature is the one of the
table, and whose values read against that signature give exactly the arguments
of the table, none missing and none left over. -/
theorem appendUserData2Msg_matches_table (w : World) (a : Answer) (bus : Nat) (msg : SD_BUS_MSG)
    (ret : Int) (action : ServiceAction) (service : String)
    (hnul : ∀ c ∈ service.toList, c ≠ Char.ofNat 0) :
    ∃ args,
      (appendUserData2Msg (createNewMethodCall w a bus msg action).1 ret action
        (createNewMethodCall w a bus msg action).2.1 service).1.trace
        = (createNewMethodCall w a bus msg action).1.trace ++
          [Event.messageAppend (createNewMethodCall w a bus msg action).2.1.m_msg
            (specSignature action) args ret] ∧
      readArgs (specSignature action) args = some (specArguments action service) := by
  have h := appendUserData2Msg_c_str w a bus msg ret action service
  rw [c_str_of_no_nul service hnul] at h
  exact h

/-- Witness of C2 amended, for `UNMASK` and `foo.service`. -/
theorem appendUserData2Msg_matches_table_witness :
    ∃ args,
      (appendUserData2Msg (createNewMethodCall {} ⟨0, true⟩ 0 {} ServiceAction.UNMASK).1 0
        ServiceAction.UNMASK (createNewMethodCall {} ⟨0, true⟩ 0 {} ServiceAction.UNMASK).2.1
        "foo.service").1.trace
        = (createNewMethodCall {} ⟨0, true⟩ 0 {} ServiceAction.UNMASK).1.trace ++
          [Event.messageAppend
            (createNewMethodCall {} ⟨0, true⟩ 0 {} ServiceAction.UNMASK).2.1.m_msg
            (specSignature ServiceAction.UNMASK) args 0] ∧
      readArgs (specSignature ServiceAction.UNMASK) args
        = some (specArguments ServiceAction.UNMASK "foo.service") :=
  appendUserData2Msg_matches_table {} ⟨0, true⟩ 0 {} 0 ServiceAction.UNMASK "foo.service"
    (by decide)

/-- C3, as stated, fails: for the unit name `foo`, NUL, `bar` the one append
call of `doServiceAction(START, u)` carries the strings `foo` and `fail`; the
first is not the unit name. -/
theorem doServiceAction_start_cuts_at_nul :
    appends (World.since {} (SystemdDbusServiceLib.doServiceAction { m_bus := some 0 }
        {} ⟨⟨0, true⟩, 0, ⟨0, true⟩⟩ ServiceAction.START "foo\x00bar").1)
        = [("ss", [VArg.str "foo", VArg.str "fail"])] ∧
      appends (World.since {} (SystemdDbusServiceLib.doServiceAction { m_bus := some 0 }
        {} ⟨⟨0, true⟩, 0, ⟨0, true⟩⟩ ServiceAction.START "foo\x00bar").1)
        ≠ [("ss", [VArg.str "foo\x00bar", VArg.str "fail"])] := by
  decide

/-- C3, amended: for every unit name `u` that contains no NUL character, on a
good connection and a bus that accepts every operation, `doServiceAction(START,
u)` builds exactly one method call, addressed to service
`org.freedesktop.systemd1`, path `/org/freedesktop/systemd1`, interface
`org.freedesktop.systemd1.Manager`, method `StartUnit`, and makes exactly one
append call, with signature `ss` and the values `u`, `"fail"`, which read as
the two strings `u` and `"fail"`. -/
theorem doServiceAction_start (s : SystemdDbusServiceLib) (w : World) (t : CallAnswers)
    (u : String) (hnul : ∀ c ∈ u.toList, c ≠ Char.ofNat 0)
    (hgood : s.isGood = true) (hnew : t.newMethodCall.ret = 0)
    (happ : 0 ≤ t.append) (hcall : 0 ≤ t.call.ret) :
    methodCalls (w.since (s.doServiceAction w t ServiceAction.START u).1)
        = [("org.freedesktop.systemd1", "/org/freedesktop/systemd1",
            "org.freedesktop.systemd1.Manager", "StartUnit")] ∧
      appends (w.since (s.doServiceAction w t ServiceAction.START u).1)
        = [("ss", [VArg.str u, VArg.str "fail"])] ∧
      readArgs "ss" [VArg.str u, VArg.str "fail"]
        = some [DBusValue.string u, DBusValue.string "fail"] ∧
      (s.doServiceAction w t ServiceAction.START u).2 = 0 := by
  obtain ⟨b, hb⟩ := exists_bus_of_isGood s hgood
  have happ1 : ¬ t.append < 0 := not_lt.mpr happ
  have hcall1 : ¬ t.call.ret < 0 := not_lt.mpr hcall
  have hc := c_str_of_no_nul u hnul
  cases hw1 : t.newMethodCall.wrote <;> cases hw2 : t.call.wrote <;>
    simp [SystemdDbusServiceLib.doServiceAction, hb, createNewMethodCall, actionMapping.find,
      actionMapping, appendUserData2Msg, sd_bus_message_append, sd_bus_message_new_method_call,
      sd_bus_call, sd_bus_message_unref, SD_BUS_MSG.destroy, SD_BUS_MSG.getSignature,
      SD_BUS_MSG.setData, World.store, World.bump, World.since, methodCalls, appends,
      readArgs, readArgsFrom, hnew, happ1, hcall1, hw1, hw2, hc]

/-- Witness of C3 amended with `u = "foo.service"`. -/
theorem doServiceAction_start_witness :
    methodCalls (World.since {} (SystemdDbusServiceLib.doServiceAction { m_bus := some 0 }
        {} ⟨⟨0, true⟩, 0, ⟨0, true⟩⟩ ServiceAction.START "foo.service").1)
        = [("org.freedesktop.systemd1", "/org/freedesktop/systemd1",
            "org.freedesktop.systemd1.Manager", "StartUnit")] ∧
      appends (World.since {} (SystemdDbusServiceLib.doServiceAction { m_bus := some 0 }
        {} ⟨⟨0, true⟩, 0, ⟨0, true⟩⟩ ServiceAction.START "foo.service").1)
        = [("ss", [VArg.str "foo.service", VArg.str "fail"])] ∧
      readArgs "ss" [VArg.str "foo.service", VArg.str "fail"]
        = some [DBusValue.string "foo.service", DBusValue.string "fail"] ∧
      (SystemdDbusServiceLib.doServiceAction { m_bus := some 0 }
        {} ⟨⟨0, true⟩, 0, ⟨0, true⟩⟩ ServiceAction.START "foo.service").2 = 0 :=
  doServiceAction_start { m_bus := some 0 } {} ⟨⟨0, true⟩, 0, ⟨0, true⟩⟩ "foo.service"
    (by decide) rfl rfl (by decide) (by decide)

/-- C4, as stated, fails: for the unit name `a`, NUL, `b.service` the one
append call of `doServiceAction(ENABLE, u)` reads as the array containing `a`,
false, true; the array does not contain the unit name. -/
theorem doServiceAction_enable_cuts_at_nul :
    appends (World.since {} (SystemdDbusServiceLib.doServiceAction { m_bus := some 0 }
        {} ⟨⟨0, true⟩, 0, ⟨0, true⟩⟩ ServiceAction.ENABLE "a\x00b.service").1)
        = [("asbb", [VArg.int 1, VArg.str "a", VArg.int 0, VArg.int 1])] ∧
      readArgs "asbb" [VArg.int 1, VArg.str "a", VArg.int 0, VArg.int 1]
        = some [DBusValue.stringArray ["a"], DBusValue.boolean false,
            DBusValue.boolean true] ∧
      readArgs "asbb" [VArg.int 1, VArg.str "a", VArg.int 0, VArg.int 1]
        ≠ some [DBusValue.stringArray ["a\x00b.service"], DBusValue.boolean false,
            DBusValue.boolean true] := by
  decide

/-- C4, amended: for every unit name `u` that contains no NUL character, on a
good connection and a bus that accepts every operation,
`doServiceAction(ENABLE, u)` builds exactly one method call, to method
`EnableUnitFiles`, and makes exactly one append call, with signature `asbb` and
values that read as three arguments in this order: the array of strings
containing only `u`, the boolean false, the boolean true. -/
theorem doServiceAction_enable (s : SystemdDbusServiceLib) (w : World) (t : CallAnswers)
    (u : String) (hnul : ∀ c ∈ u.toList, c ≠ Char.ofNat 0)
    (hgood : s.isGood = true) (hnew : t.newMethodCall.ret = 0)
    (happ : 0 ≤ t.append) (hcall : 0 ≤ t.call.ret) :
    methodCalls (w.since (s.doServiceAction w t ServiceAction.ENABLE u).1)
        = [("org.freedesktop.systemd1", "/org/freedesktop/systemd1",
            "org.freedesktop.systemd1.Manager", "EnableUnitFiles")] ∧
      (∃ args, appends (w.since (s.doServiceAction w t ServiceAction.ENABLE u).1)
          = [("asbb", args)] ∧
        readArgs "asbb" args = some [DBusValue.stringArray [u], DBusValue.boolean false,
          DBusValue.boolean true]) ∧
      (s.doServiceAction w t ServiceAction.ENABLE u).2 = 0 := by
  obtain ⟨b, hb⟩ := exists_bus_of_isGood s hgood
  have happ1 : ¬ t.append < 0 := not_lt.mpr happ
  have hcall1 : ¬ t.call.ret < 0 := not_lt.mpr hcall
  have hc := c_str_of_no_nul u hnul
  cases hw1 : t.newMethodCall.wrote <;> cases hw2 : t.call.wrote <;>
    simp [SystemdDbusServiceLib.doServiceAction, hb, createNewMethodCall, actionMapping.find,
      actionMapping, appendUserData2Msg, sd_bus_message_append, sd_bus_message_new_method_call,
      sd_bus_call, sd_bus_message_unref, SD_BUS_MSG.destroy, SD_BUS_MSG.getSignature,
      SD_BUS_MSG.setData, World.store, World.bump, World.since, methodCalls, appends,
      readArgs, readArgsFrom, takeStrings, VArg.ofBool, hnew, happ1, hcall1, hw1, hw2, hc]

/-- Witness of C4 amended with `u = "bar.service"`. -/
theorem doServiceAction_enable_witness :
    methodCalls (World.since {} (SystemdDbusServiceLib.doServiceAction { m_bus := some 0 }
        {} ⟨⟨0, true⟩, 0, ⟨0, true⟩⟩ ServiceAction.ENABLE "bar.service").1)
        = [("org.freedesktop.systemd1", "/org/freedesktop/systemd1",
            "org.freedesktop.systemd1.Manager", "EnableUnitFiles")] ∧
      (∃ args, appends (World.since {} (SystemdDbusServiceLib.doServiceAction
          { m_bus := some 0 } {} ⟨⟨0, true⟩, 0, ⟨0, true⟩⟩ ServiceAction.ENABLE
          "bar.service").1) = [("asbb", args)] ∧
        readArgs "asbb" args = some [DBusValue.stringArray ["bar.service"],
          DBusValue.boolean false, DBusValue.boolean true]) ∧
      (SystemdDbusServiceLib.doServiceAction { m_bus := some 0 }
        {} ⟨⟨0, true⟩, 0, ⟨0, true⟩⟩ ServiceAction.ENABLE "bar.service").2 = 0 :=
  doServiceAction_enable { m_bus := some 0 } {} ⟨⟨0, true⟩, 0, ⟨0, true⟩⟩ "bar.service"
    (by decide) rfl rfl (by decide) (by decide)

/-- C5, as stated, fails: when `sd_bus_message_new_method_call` answers 5,
`doServiceAction` returns 5, which is neither 0 nor negative. -/
theorem doServiceAction_positive_status :
    (SystemdDbusServiceLib.doServiceAction { m_bus := some 0 } {}
        ⟨⟨5, false⟩, 0, ⟨0, false⟩⟩ ServiceAction.START "foo.service").2 = 5 ∧
      ¬ ((SystemdDbusServiceLib.doServiceAction { m_bus := some 0 } {}
          ⟨⟨5, false⟩, 0, ⟨0, false⟩⟩ ServiceAction.START "foo.service").2 ≤ 0) := by
  decide

/-- C5, amended: the status of `doServiceAction` is 0 when the action succeeded;
otherwise it is negative, provided message construction did not answer with a
positive status; a positive status of message construction on a good
connection is returned unchanged. -/
theorem doServiceAction_status (s : SystemdDbusServiceLib) (w : World) (t : CallAnswers)
    (action : ServiceAction) (service : String) :
    (succeeded s t → (s.doServiceAction w t action service).2 = 0) ∧
      (¬ succeeded s t → t.newMethodCall.ret ≤ 0 →
        (s.doServiceAction w t action service).2 < 0) ∧
      (s.isGood = true → 0 < t.newMethodCall.ret →
        (s.doServiceAction w t action service).2 = t.newMethodCall.ret) := by
  cases hm : s.m_bus with
  | none =>
    simp [SystemdDbusServiceLib.doServiceAction, hm, succeeded, SystemdDbusServiceLib.isGood]
  | some b =>
    have hfind : ∃ d, actionMapping.find action = some d := by
      cases action <;> simp [actionMapping.find, actionMapping]
    obtain ⟨d, hd⟩ := hfind
    have happend : ∀ w1 msg, (appendUserData2Msg w1 t.append action msg service).2 = t.append := by
      intro w1 msg
      cases action <;> simp [appendUserData2Msg, sd_bus_message_append]
    simp only [SystemdDbusServiceLib.doServiceAction, hm, createNewMethodCall, hd,
      sd_bus_message_new_method_call, sd_bus_call, happend, succeeded,
      SystemdDbusServiceLib.isGood]
    refine ⟨?_, ?_, ?_⟩
    · rintro ⟨-, h1, h2, h3⟩
      simp [h1, not_lt.mpr h2, not_lt.mpr h3]
    · intro hns hle
      by_cases h1 : t.newMethodCall.ret = 0
      · by_cases h2 : t.append < 0
        · simp [h1, h2]
        · by_cases h3 : t.call.ret < 0
          · simp [h1, h2, h3]
          · exact absurd ⟨by simp, h1, not_lt.mp h2, not_lt.mp h3⟩ hns
      · simp only [ne_eq, h1, not_false_eq_true, if_true]
        omega
    · intro _ hpos
      have h1 : t.newMethodCall.ret ≠ 0 := by omega
      simp [h1]

/-- Witness of C5 amended: a completed action, a failed call, and a positive
status of message construction. -/
theorem doServiceAction_status_witness :
    (SystemdDbusServiceLib.doServiceAction { m_bus := some 0 } {}
        ⟨⟨0, true⟩, 0, ⟨0, true⟩⟩ ServiceAction.STOP "foo.service").2 = 0 ∧
      (SystemdDbusServiceLib.doServiceAction { m_bus := some 0 } {}
        ⟨⟨0, true⟩, 0, ⟨-5, false⟩⟩ ServiceAction.STOP "foo.service").2 < 0 ∧
      (SystemdDbusServiceLib.doServiceAction { m_bus := some 0 } {}
        ⟨⟨5, false⟩, 0, ⟨0, false⟩⟩ ServiceAction.STOP "foo.service").2 = 5 :=
  ⟨(doServiceAction_status { m_bus := some 0 } {} ⟨⟨0, true⟩, 0, ⟨0, true⟩⟩
      ServiceAction.STOP "foo.service").1 ⟨rfl, rfl, by decide, by decide⟩,
    (doServiceAction_status { m_bus := some 0 } {} ⟨⟨0, true⟩, 0, ⟨-5, false⟩⟩
      ServiceAction.STOP "foo.service").2.1 (by unfold succeeded; decide) (by decide),
    (doServiceAction_status { m_bus := some 0 } {} ⟨⟨5, false⟩, 0, ⟨0, false⟩⟩
      ServiceAction.STOP "foo.service").2.2 rfl (by decide)⟩

/-- C6: when the append call answers with a negative status `r` (connection
good, message built), `doServiceAction` returns `r` and records no
`sd_bus_call`; and one invocation of `appendUserData2Msg` never records more
than one append call. -/
theorem doServiceAction_append_failure (s : SystemdDbusServiceLib) (w : World)
    (t : CallAnswers) (action : ServiceAction) (service : String)
    (hgood : s.isGood = true) (hnew : t.newMethodCall.ret = 0) (happ : t.append < 0) :
    (s.doServiceAction w t action service).2 = t.append ∧
      busCalls (w.since (s.doServiceAction w t action service).1) = [] ∧
      (appends (w.since (s.doServiceAction w t action service).1)).length ≤ 1 ∧
      ∀ (w0 : World) (r : Int) (msg : SD_BUS_MSG),
        (appends (w0.since (appendUserData2Msg w0 r action msg service).1)).length ≤ 1 := by
  obtain ⟨b, hb⟩ := exists_bus_of_isGood s hgood
  refine ⟨?_, ?_, ?_, ?_⟩
  · cases action <;>
      simp [SystemdDbusServiceLib.doServiceAction, hb, createNewMethodCall, actionMapping.find,
        actionMapping, appendUserData2Msg, sd_bus_message_append,
        sd_bus_message_new_method_call, hnew, happ]
  · cases action <;> cases hw1 : t.newMethodCall.wrote <;>
      simp [SystemdDbusServiceLib.doServiceAction, hb, createNewMethodCall, actionMapping.find,
        actionMapping, appendUserData2Msg, sd_bus_message_append,
        sd_bus_message_new_method_call, sd_bus_message_unref, SD_BUS_MSG.destroy,
        SD_BUS_MSG.setData, World.store, World.bump, World.since, busCalls, hnew, happ, hw1]
  · cases action <;> cases hw1 : t.newMethodCall.wrote <;>
      simp [SystemdDbusServiceLib.doServiceAction, hb, createNewMethodCall, actionMapping.find,
        actionMapping, appendUserData2Msg, sd_bus_message_append,
        sd_bus_message_new_method_call, sd_bus_message_unref, SD_BUS_MSG.destroy,
        SD_BUS_MSG.setData, World.store, World.bump, World.since, appends, hnew, happ, hw1]
  · intro w0 r msg
    cases action <;>
      simp [appendUserData2Msg, sd_bus_message_append, World.since, appends]

/-- Witness of C6: the append call answers -22. -/
theorem doServiceAction_append_failure_witness :
    (SystemdDbusServiceLib.doServiceAction { m_bus := some 0 } {}
        ⟨⟨0, true⟩, -22, ⟨0, true⟩⟩ ServiceAction.MASK "foo.service").2 = -22 ∧
      busCalls (World.since {} (SystemdDbusServiceLib.doServiceAction { m_bus := some 0 } {}
        ⟨⟨0, true⟩, -22, ⟨0, true⟩⟩ ServiceAction.MASK "foo.service").1) = [] :=
  ⟨(doServiceAction_append_failure { m_bus := some 0 } {} ⟨⟨0, true⟩, -22, ⟨0, true⟩⟩
      ServiceAction.MASK "foo.service" rfl rfl (by decide)).1,
    (doServiceAction_append_failure { m_bus := some 0 } {} ⟨⟨0, true⟩, -22, ⟨0, true⟩⟩
      ServiceAction.MASK "foo.service" rfl rfl (by decide)).2.1⟩

/-! ## Traces of the public operations -/

/-- The result of `createNewMethodCall` on a fresh message, for any action. -/
theorem createNewMethodCall_eq (w : World) (a : Answer) (bus : Nat) (action : ServiceAction) :
    ∃ d, createNewMethodCall w a bus {} action =
      ({ trace := w.trace ++ [Event.messageNewMethodCall bus "org.freedesktop.systemd1"
            "/org/freedesktop/systemd1" "org.freedesktop.systemd1.Manager" d.dbusFunction
            a.ret (if a.wrote then some w.nextHandle else none)],
         nextHandle := w.bump a.wrote },
       { m_msg := w.store a.wrote none, m_data := d }, a.ret) := by
  cases action <;>
    simp [createNewMethodCall, actionMapping.find, actionMapping,
      sd_bus_message_new_method_call, SD_BUS_MSG.setData]

/-- The result of `appendUserData2Msg`, for any action. -/
theorem appendUserData2Msg_eq (w : World) (r : Int) (action : ServiceAction)
    (msg : SD_BUS_MSG) (service : String) :
    ∃ args, appendUserData2Msg w r action msg service =
      ({ trace := w.trace ++ [Event.messageAppend msg.m_msg msg.getSignature args r],
         nextHandle := w.nextHandle }, r) := by
  cases action <;> simp [appendUserData2Msg, sd_bus_message_append]

/-- What one `doServiceAction` adds to the record of the bus: the old record is
kept, handle numbers only grow, the bus handle is only used (so an audit that
has not seen it released is unchanged), no bus handle is opened or released,
and the message handles handed out are those given back. -/
theorem doServiceAction_trace (s : SystemdDbusServiceLib) (w : World) (t : CallAnswers)
    (action : ServiceAction) (service : String) :
    (s.doServiceAction w t action service).1.trace
        = w.trace ++ w.since (s.doServiceAction w t action service).1 ∧
      w.nextHandle ≤ (s.doServiceAction w t action service).1.nextHandle ∧
      (∀ rel, (∀ b, s.m_bus = some b → b ∉ rel) →
        (w.since (s.doServiceAction w t action service).1).foldl auditStep (some rel)
          = some rel) ∧
      busOpened (w.since (s.doServiceAction w t action service).1) = [] ∧
      busReleased (w.since (s.doServiceAction w t action service).1) = [] ∧
      (msgAcquired (w.since (s.doServiceAction w t action service).1)).Perm
        (msgReleased (w.since (s.doServiceAction w t action service).1)) := by
  cases hm : s.m_bus with
  | none => simp [SystemdDbusServiceLib.doServiceAction, hm, World.since, busOpened,
      busReleased, msgAcquired, msgReleased]
  | some b =>
    obtain ⟨d, hd⟩ := createNewMethodCall_eq w t.newMethodCall b action
    obtain ⟨args, ha⟩ := appendUserData2Msg_eq
      { trace := w.trace ++ [Event.messageNewMethodCall b "org.freedesktop.systemd1"
            "/org/freedesktop/systemd1" "org.freedesktop.systemd1.Manager" d.dbusFunction
            t.newMethodCall.ret (if t.newMethodCall.wrote then some w.nextHandle else none)],
        nextHandle := w.bump t.newMethodCall.wrote }
      t.append action { m_msg := w.store t.newMethodCall.wrote none, m_data := d } service
    simp only [SystemdDbusServiceLib.doServiceAction, hm, hd, ha]
    refine ⟨?_, ?_, ?_, ?_, ?_, ?_⟩
    all_goals try intro rel hrel
    all_goals try have hrel1 : b ∉ rel := hrel b rfl
    all_goals
      cases hw1 : t.newMethodCall.wrote <;> cases hw2 : t.call.wrote <;>
      by_cases h1 : t.newMethodCall.ret = 0 <;> by_cases h2 : t.append < 0 <;>
      by_cases h3 : t.call.ret < 0 <;>
      simp [sd_bus_call, sd_bus_message_unref,
        SD_BUS_MSG.destroy, World.store, World.bump, World.since,
        busOpened, busReleased, msgAcquired, msgReleased, auditStep, *] <;>
      first | done | omega | exact List.Perm.swap _ _ _

/-- The audit of an extended record continues from the audit of the old one. -/
theorem audit_append (es1 es2 : List Event) (rel : List Nat) (h : audit es1 = some rel) :
    audit (es1 ++ es2) = es2.foldl auditStep (some rel) := by
  unfold audit at h ⊢
  rw [List.foldl_append, h]

/-- What one `reinit` adds to the record of the bus. -/
theorem reinit_trace (s : SystemdDbusServiceLib) (w : World) (a : Answer) :
    (s.reinit w a).1.trace = w.trace ++ w.since (s.reinit w a).1 ∧
      msgAcquired (w.since (s.reinit w a).1) = [] ∧
      msgReleased (w.since (s.reinit w a).1) = [] ∧
      (busReleased (w.since (s.reinit w a).1)).length ≤ 1 := by
  refine ⟨?_, ?_, ?_, ?_⟩ <;>
    by_cases h : a.ret = 0 <;> cases hw : a.wrote <;> cases hm : s.m_bus <;>
    simp [SystemdDbusServiceLib.reinit, SystemdDbusServiceLib.init,
      SystemdDbusServiceLib.cleanUp, sd_bus_open_system, sd_bus_flush_close_unref,
      World.store, World.bump, World.since, msgAcquired, msgReleased, busReleased, h, hw, hm]

/-- The invariant holds for a null handle and a bus with nothing recorded. -/
theorem inv_initial : Inv {} { m_bus := none } := by
  refine ⟨[], rfl, ?_, ?_, ?_, ?_⟩ <;> simp [busReleased, busOpened]

/-- Opened handles after one more `sd_bus_open_system`. -/
theorem busOpened_snoc_open (es : List Event) (r : Int) (out : Option Nat) :
    busOpened (es ++ [Event.busOpenSystem r out]) = busOpened es ++ out.toList := by
  cases out <;> simp [busOpened, List.filterMap_append]

/-- Opened handles after one more `sd_bus_flush_close_unref`. -/
theorem busOpened_snoc_release (es : List Event) (b : Nat) :
    busOpened (es ++ [Event.busFlushCloseUnref b]) = busOpened es := by
  simp [busOpened, List.filterMap_append]

/-- Released handles after one more `sd_bus_open_system`. -/
theorem busReleased_snoc_open (es : List Event) (r : Int) (out : Option Nat) :
    busReleased (es ++ [Event.busOpenSystem r out]) = busReleased es := by
  simp [busReleased, List.filterMap_append]

/-- Released handles after one more `sd_bus_flush_close_unref`. -/
theorem busReleased_snoc_release (es : List Event) (b : Nat) :
    busReleased (es ++ [Event.busFlushCloseUnref b]) = busReleased es ++ [b] := by
  simp [busReleased, List.filterMap_append]

/-- The method `init` keeps the invariant of the connection handle. -/
theorem init_inv (s : SystemdDbusServiceLib) (w : World) (a : Answer) (hinv : Inv w s) :
    Inv (s.init w a).1 (s.init w a).2.1 := by
  obtain ⟨rel, haud, hrel, hop, hsub, hb⟩ := hinv
  have hfresh : w.nextHandle ∉ rel := fun hin => lt_irrefl _ (hop _ (hsub _ hin))
  cases hw : a.wrote
  · refine ⟨rel, ?_, ?_, ?_, ?_, ?_⟩
    · simp [SystemdDbusServiceLib.init, sd_bus_open_system, audit_append _ _ rel haud,
        auditStep]
    all_goals
      simp only [SystemdDbusServiceLib.init, sd_bus_open_system, World.store, World.bump, hw,
        Bool.false_eq_true, if_false, busOpened_snoc_open, busReleased_snoc_open,
        Option.toList, List.append_nil]
      assumption
  · refine ⟨rel, ?_, ?_, ?_, ?_, ?_⟩
    · simp [SystemdDbusServiceLib.init, sd_bus_open_system, audit_append _ _ rel haud,
        auditStep]
    all_goals
      simp only [SystemdDbusServiceLib.init, sd_bus_open_system, World.store, World.bump, hw,
        if_true, busOpened_snoc_open, busReleased_snoc_open, Option.toList,
        List.mem_append, List.mem_singleton]
    · exact hrel
    · intro h hh
      rcases hh with hh | hh
      · exact Nat.lt_succ_of_lt (hop _ hh)
      · omega
    · intro h hh
      exact Or.inl (hsub _ hh)
    · intro b hbb
      have hbn : w.nextHandle = b := by simpa using hbb
      exact ⟨Or.inr hbn.symm, hbn ▸ hfresh⟩

/-- Releasing the held handle and nulling the pointer keeps the invariant. -/
theorem cleanUp_inv (s : SystemdDbusServiceLib) (w : World) (hinv : Inv w s) :
    Inv (s.cleanUp w) { m_bus := none } := by
  obtain ⟨rel, haud, hrel, hop, hsub, hb⟩ := hinv
  cases hm : s.m_bus with
  | none =>
    simp only [SystemdDbusServiceLib.cleanUp, hm]
    exact ⟨rel, haud, hrel, hop, hsub, by simp⟩
  | some b =>
    obtain ⟨hb1, hb2⟩ := hb b hm
    refine ⟨b :: rel, ?_, ?_, ?_, ?_, by simp⟩
    · simp [SystemdDbusServiceLib.cleanUp, hm, sd_bus_flush_close_unref,
        audit_append _ _ rel haud, auditStep, hb2]
    all_goals
      simp only [SystemdDbusServiceLib.cleanUp, hm, sd_bus_flush_close_unref,
        busOpened_snoc_release, busReleased_snoc_release, List.mem_append,
        List.mem_singleton, List.mem_cons]
    · intro h
      rw [hrel h]
      tauto
    · exact hop
    · intro h hh
      rcases hh with hh | hh
      · rw [hh]; exact hb1
      · exact hsub _ hh

/-- Every `reinit` keeps the invariant of the connection handle. -/
theorem reinit_inv (s : SystemdDbusServiceLib) (w : World) (a : Answer) (hinv : Inv w s) :
    Inv (s.reinit w a).1 (s.reinit w a).2.1 := by
  have h1 := init_inv s w a hinv
  by_cases h : (s.init w a).2.2 = 0
  · simpa [SystemdDbusServiceLib.reinit, h] using h1
  · simpa [SystemdDbusServiceLib.reinit, h] using cleanUp_inv _ _ h1

/-- Every `doServiceAction` keeps the invariant of the connection handle. -/
theorem doServiceAction_inv (s : SystemdDbusServiceLib) (w : World) (t : CallAnswers)
    (action : ServiceAction) (service : String) (hinv : Inv w s) :
    Inv (s.doServiceAction w t action service).1 s := by
  obtain ⟨rel, haud, hrel, hop, hsub, hb⟩ := hinv
  obtain ⟨htr, hnext, hfold, hopened, hreleased, -⟩ :=
    doServiceAction_trace s w t action service
  have hO : busOpened (s.doServiceAction w t action service).1.trace = busOpened w.trace := by
    rw [htr]
    unfold busOpened at hopened ⊢
    rw [List.filterMap_append, hopened, List.append_nil]
  have hR : busReleased (s.doServiceAction w t action service).1.trace
      = busReleased w.trace := by
    rw [htr]
    unfold busReleased at hreleased ⊢
    rw [List.filterMap_append, hreleased, List.append_nil]
  refine ⟨rel, ?_, ?_, ?_, hO ▸ hsub, hO ▸ hb⟩
  · rw [htr, audit_append _ _ rel haud]
    exact hfold rel fun b hbb => (hb b hbb).2
  · rw [hR]; exact hrel
  · rw [hO]; exact fun h hh => lt_of_lt_of_le (hop h hh) hnext

/-- Every public operation keeps the invariant of the connection handle. -/
theorem runOps_inv (ops : List Op) (w : World) (s : SystemdDbusServiceLib) (hinv : Inv w s) :
    Inv (runOps w s ops).1 (runOps w s ops).2 := by
  induction ops generalizing w s with
  | nil => exact hinv
  | cons op ops ih =>
    cases op with
    | reinit a => exact ih _ _ (reinit_inv s w a hinv)
    | doServiceAction t action service =>
      exact ih _ _ (doServiceAction_inv s w t action service hinv)

/-- The invariant holds throughout the life of an object. -/
theorem life_inv (a : Answer) (ops : List Op) : Inv (life a ops).1 (life a ops).2 :=
  runOps_inv ops _ _ (reinit_inv _ _ a inv_initial)

/-- A `reinit` whose `sd_bus_open_system` answers non-zero returns that status
and leaves the handle null. -/
theorem reinit_failed (s : SystemdDbusServiceLib) (w : World) (a : Answer) (h : a.ret ≠ 0) :
    (s.reinit w a).2.2 = a.ret ∧ (s.reinit w a).2.1.m_bus = none := by
  simp [SystemdDbusServiceLib.reinit, SystemdDbusServiceLib.init, sd_bus_open_system, h]

/-- A `reinit` whose `sd_bus_open_system` answers 0 and stores a handle returns 0
and holds that handle. -/
theorem reinit_opened (s : SystemdDbusServiceLib) (w : World) (a : Answer) (h : a.ret = 0)
    (hw : a.wrote = true) :
    (s.reinit w a).2.2 = 0 ∧ (s.reinit w a).2.1.m_bus = some w.nextHandle := by
  simp [SystemdDbusServiceLib.reinit, SystemdDbusServiceLib.init, sd_bus_open_system,
    World.store, h, hw]

/-- An object with a null handle stays so while every `reinit` fails. -/
theorem runOps_all_failed (ops : List Op) (w : World) (s : SystemdDbusServiceLib)
    (hs : s.m_bus = none) (hall : ∀ b, Op.reinit b ∈ ops → b.ret ≠ 0) :
    (runOps w s ops).2.m_bus = none := by
  induction ops generalizing w s with
  | nil => exact hs
  | cons op ops ih =>
    have hrest : ∀ b, Op.reinit b ∈ ops → b.ret ≠ 0 :=
      fun b hb => hall b (List.mem_cons_of_mem _ hb)
    cases op with
    | reinit a =>
      exact ih _ _ (reinit_failed s w a (hall a (List.mem_cons_self _ _))).2 hrest
    | doServiceAction t action service => exact ih _ _ hs hrest

/-- The handles seen released by a passed audit are the released handles. -/
theorem busSafe_of_inv (w : World) (s : SystemdDbusServiceLib) (hinv : Inv w s) :
    busSafe w.trace = true := by
  obtain ⟨rel, haud, -⟩ := hinv
  simp [busSafe, haud]

/-- The record after a sequence of operations extends the record before it,
and the message handles handed out meanwhile are those given back. -/
theorem runOps_trace (ops : List Op) (w : World) (s : SystemdDbusServiceLib) :
    ∃ es, (runOps w s ops).1.trace = w.trace ++ es ∧
      (msgAcquired es).Perm (msgReleased es) := by
  induction ops generalizing w s with
  | nil => exact ⟨[], by simp [runOps], by simp [msgAcquired, msgReleased]⟩
  | cons op ops ih =>
    obtain ⟨es2, h2, p2⟩ := ih (op.run w s).1 (op.run w s).2
    have h1 : ∃ es1, (op.run w s).1.trace = w.trace ++ es1 ∧
        (msgAcquired es1).Perm (msgReleased es1) := by
      cases op with
      | reinit a =>
        obtain ⟨ht, ha, hr, -⟩ := reinit_trace s w a
        exact ⟨_, ht, by rw [ha, hr]⟩
      | doServiceAction t action service =>
        obtain ⟨ht, -, -, -, -, hp⟩ := doServiceAction_trace s w t action service
        exact ⟨_, ht, hp⟩
    obtain ⟨es1, h1, p1⟩ := h1
    refine ⟨es1 ++ es2, ?_, ?_⟩
    · show (runOps (op.run w s).1 (op.run w s).2 ops).1.trace = _
      rw [h2, h1, List.append_assoc]
    · unfold msgAcquired msgReleased at *
      rw [List.filterMap_append, List.filterMap_append]
      exact p1.append p2

/-! ## Properties of the connection handle and of the message handles -/

/-- C7: throughout the life of an object, `isGood()` is true exactly when the
object holds a bus handle that was opened and has not been released; it is
false when the constructor's and every later `reinit`'s opening failed; it is
true right after a construction or a `reinit` whose `sd_bus_open_system`
answered 0 and stored a handle; and it is false whenever the handle is null. -/
theorem isGood_iff_connection_open (a : Answer) (ops : List Op) :
    ((life a ops).2.isGood = true ↔
        ∃ b, (life a ops).2.m_bus = some b ∧ b ∈ busOpened (life a ops).1.trace ∧
          b ∉ busReleased (life a ops).1.trace) ∧
      (allOpensFailed a ops → (life a ops).2.isGood = false) ∧
      (a.ret = 0 → a.wrote = true → (life a []).2.isGood = true) ∧
      (∀ o : Answer, o.ret = 0 → o.wrote = true →
        ((life a ops).2.reinit (life a ops).1 o).2.1.isGood = true) ∧
      ((life a ops).2.m_bus = none → (life a ops).2.isGood = false) := by
  refine ⟨⟨?_, ?_⟩, ?_, ?_, ?_, ?_⟩
  · intro hgood
    obtain ⟨b, hb⟩ := exists_bus_of_isGood _ hgood
    obtain ⟨rel, -, hrel, -, -, hheld⟩ := life_inv a ops
    exact ⟨b, hb, (hheld b hb).1, fun hin => (hheld b hb).2 ((hrel b).2 hin)⟩
  · rintro ⟨b, hb, -⟩
    simp [SystemdDbusServiceLib.isGood, hb]
  · rintro ⟨ha, hall⟩
    have hnull : (life a ops).2.m_bus = none :=
      runOps_all_failed ops _ _ (reinit_failed _ _ a ha).2 hall
    simp [SystemdDbusServiceLib.isGood, hnull]
  · intro ha hw
    have h := (reinit_opened { m_bus := none } {} a ha hw).2
    simp [life, runOps, SystemdDbusServiceLib.construct, SystemdDbusServiceLib.isGood, h]
  · intro o ho hw
    simp [SystemdDbusServiceLib.isGood, (reinit_opened _ _ o ho hw).2]
  · intro hnull
    simp [SystemdDbusServiceLib.isGood, hnull]

/-- Witness of C7: a construction and a `reinit` that both fail leave `isGood()`
false, and a following `reinit` that opens the connection makes it true. -/
theorem isGood_iff_connection_open_witness :
    (life ⟨-2, false⟩ [Op.reinit ⟨-2, false⟩]).2.isGood = false ∧
      ((life ⟨-2, false⟩ [Op.reinit ⟨-2, false⟩]).2.reinit
        (life ⟨-2, false⟩ [Op.reinit ⟨-2, false⟩]).1 ⟨0, true⟩).2.1.isGood = true :=
  ⟨(isGood_iff_connection_open ⟨-2, false⟩ [Op.reinit ⟨-2, false⟩]).2.1
      ⟨by decide, by
        intro b hb
        have hbb : b = ⟨-2, false⟩ := by simpa using hb
        rw [hbb]
        decide⟩,
    (isGood_iff_connection_open ⟨-2, false⟩ [Op.reinit ⟨-2, false⟩]).2.2.2.1 ⟨0, true⟩
      rfl rfl⟩

/-- C8: in any state an object can reach, a `reinit` whose opening fails returns
a non-zero status, leaves `isGood()` false with the handle null, and releases at
most one handle; and whatever `reinit` and `doServiceAction` calls follow, up
to and including destruction, no bus handle is released twice and none is
passed to the bus after its release. -/
theorem reinit_failure_safe (a : Answer) (ops : List Op) (o : Answer) (later : List Op)
    (ho : o.ret ≠ 0) :
    ((life a ops).2.reinit (life a ops).1 o).2.2 ≠ 0 ∧
      ((life a ops).2.reinit (life a ops).1 o).2.1.isGood = false ∧
      ((life a ops).2.reinit (life a ops).1 o).2.1.m_bus = none ∧
      (busReleased ((life a ops).1.since
        ((life a ops).2.reinit (life a ops).1 o).1)).length ≤ 1 ∧
      busSafe ((runOps ((life a ops).2.reinit (life a ops).1 o).1
          ((life a ops).2.reinit (life a ops).1 o).2.1 later).2.destroy
        (runOps ((life a ops).2.reinit (life a ops).1 o).1
          ((life a ops).2.reinit (life a ops).1 o).2.1 later).1).trace = true := by
  obtain ⟨hret, hnull⟩ := reinit_failed (life a ops).2 (life a ops).1 o ho
  refine ⟨by rw [hret]; exact ho, by simp [SystemdDbusServiceLib.isGood, hnull], hnull,
    (reinit_trace _ _ o).2.2.2, ?_⟩
  exact busSafe_of_inv _ _
    (cleanUp_inv _ _ (runOps_inv later _ _ (reinit_inv _ _ o (life_inv a ops))))

/-- Witness of C8: a connected object whose `reinit` fails with -111, then an
action, another `reinit` and the destruction. -/
theorem reinit_failure_safe_witness :
    ((life ⟨0, true⟩ []).2.reinit (life ⟨0, true⟩ []).1 ⟨-111, false⟩).2.2 ≠ 0 ∧
      ((life ⟨0, true⟩ []).2.reinit (life ⟨0, true⟩ []).1 ⟨-111, false⟩).2.1.isGood = false ∧
      busSafe ((runOps ((life ⟨0, true⟩ []).2.reinit (life ⟨0, true⟩ []).1 ⟨-111, false⟩).1
          ((life ⟨0, true⟩ []).2.reinit (life ⟨0, true⟩ []).1 ⟨-111, false⟩).2.1
          [Op.doServiceAction ⟨⟨0, true⟩, 0, ⟨0, true⟩⟩ ServiceAction.START "foo.service",
            Op.reinit ⟨0, true⟩]).2.destroy
        (runOps ((life ⟨0, true⟩ []).2.reinit (life ⟨0, true⟩ []).1 ⟨-111, false⟩).1
          ((life ⟨0, true⟩ []).2.reinit (life ⟨0, true⟩ []).1 ⟨-111, false⟩).2.1
          [Op.doServiceAction ⟨⟨0, true⟩, 0, ⟨0, true⟩⟩ ServiceAction.START "foo.service",
            Op.reinit ⟨0, true⟩]).1).trace = true :=
  ⟨(reinit_failure_safe ⟨0, true⟩ [] ⟨-111, false⟩
      [Op.doServiceAction ⟨⟨0, true⟩, 0, ⟨0, true⟩⟩ ServiceAction.START "foo.service",
        Op.reinit ⟨0, true⟩] (by decide)).1,
    (reinit_failure_safe ⟨0, true⟩ [] ⟨-111, false⟩
      [Op.doServiceAction ⟨⟨0, true⟩, 0, ⟨0, true⟩⟩ ServiceAction.START "foo.service",
        Op.reinit ⟨0, true⟩] (by decide)).2.1,
    (reinit_failure_safe ⟨0, true⟩ [] ⟨-111, false⟩
      [Op.doServiceAction ⟨⟨0, true⟩, 0, ⟨0, true⟩⟩ ServiceAction.START "foo.service",
        Op.reinit ⟨0, true⟩] (by decide)).2.2.2.2⟩

/-- C9: over any sequence of public operations, in particular any sequence of
`doServiceAction` calls, from any state and whatever the bus answers at message
construction, append and call, the message handles handed out (requests and
replies) are exactly those given back, so their numbers are equal. -/
theorem message_handles_balanced (w : World) (s : SystemdDbusServiceLib) (ops : List Op) :
    (msgAcquired (w.since (runOps w s ops).1)).Perm
        (msgReleased (w.since (runOps w s ops).1)) ∧
      (msgAcquired (w.since (runOps w s ops).1)).length
        = (msgReleased (w.since (runOps w s ops).1)).length := by
  obtain ⟨es, htr, hp⟩ := runOps_trace ops w s
  have hs : w.since (runOps w s ops).1 = es := by simp [World.since, htr]
  rw [hs]
  exact ⟨hp, hp.length_eq⟩

/-- C10 fails on the code: an object constructed with an open connection,
re-initialised with success and then destroyed has opened the handles 0 and 1
and released only handle 1; handle 0 is never released. -/
theorem reinit_leaks_open_connection :
    busOpened (wholeLife ⟨0, true⟩ [Op.reinit ⟨0, true⟩]).trace = [0, 1] ∧
      busReleased (wholeLife ⟨0, true⟩ [Op.reinit ⟨0, true⟩]).trace = [1] ∧
      (wholeLife ⟨0, true⟩ [Op.reinit ⟨0, true⟩]).trace
        = [Event.busOpenSystem 0 (some 0), Event.busOpenSystem 0 (some 1),
            Event.busFlushCloseUnref 1] := by
  decide

end sysddbus
